import Mathlib

/-!
Shallow embedding of the signaling and relay engine of the Auction-Pirate/streaming
server (Go sources: main.go, web.go, webrtc.go, and the unnamed parts), together
with proofs of the spec's claims about it.

The repository holds several variants of the same program. Where a claim cites a
particular file, the definitions below embed that file's code:
  * `handleBroadcasterMsg` embeds the first `handleBroadcaster` in main.go
    (stream-key check before the type switch; any media-engine failure returns);
  * `handleBroadcasterMsgP1` / `runBroadcasterLoopP1` / `handleViewerOfferP1`
    embed the handlers of src/unnamed/part_001 (raw read + json.Unmarshal,
    `continue` on media failures, `break` on read error, `broadcaster = nil`
    after the loop);
  * `fanoutPacket` / `packetIterationTrace` embed the per-packet forwarder body
    of the second `handleBroadcaster` in main.go (RLock; write to
    `viewer.StreamTracks[0]` when present, log and continue on error; RUnlock).
The Media Engine (pion) is an external collaborator; `EngineBehavior` records the
success/failure outcome of each engine call a handler makes.
-/

namespace Streaming

/-- Abstract per-connection session handle (a `*WebRTCConnection` in the source). -/
structure Session where
  handle : Nat
  deriving DecidableEq, Repr

/-- The process-wide registry: the single broadcaster slot
(`var broadcaster *WebRTCConnection`) and the viewers map
(`viewers = make(map[string]*WebRTCConnection)`), modelled as an association list. -/
structure Registry where
  broadcaster : Option Session
  viewers : List (String × Session)
  deriving DecidableEq, Repr

def Registry.empty : Registry := ⟨none, []⟩

/-- `broadcaster = b` in the broadcaster handler. -/
def setBroadcaster (s : Session) (r : Registry) : Registry :=
  { r with broadcaster := some s }

/-- `broadcaster = nil`. -/
def clearBroadcaster (r : Registry) : Registry :=
  { r with broadcaster := none }

/-- `broadcaster != nil`, as reported by the `/broadcast-status` endpoint. -/
def isBroadcasting (r : Registry) : Bool :=
  r.broadcaster.isSome

/-- `viewers[id] = s`: map insert-or-overwrite. -/
def addViewer (id : String) (s : Session) (r : Registry) : Registry :=
  { r with viewers := (id, s) :: r.viewers.filter (fun p => p.1 != id) }

/-- `delete(viewers, id)`: deletes if present, no-op otherwise. -/
def removeViewer (id : String) (r : Registry) : Registry :=
  { r with viewers := r.viewers.filter (fun p => p.1 != id) }

/-- `viewers[id]` lookup. -/
def lookupViewer (id : String) (r : Registry) : Option Session :=
  (r.viewers.find? (fun p => p.1 == id)).map Prod.snd

/-- The viewers map's current contents. -/
def snapshotViewers (r : Registry) : List (String × Session) :=
  r.viewers

/-- How many broadcaster sessions the slot holds (0 or 1: it is one pointer). -/
def broadcasterCount (r : Registry) : Nat :=
  r.broadcaster.toList.length

/-- The registry mutations the handlers perform. -/
inductive RegOp where
  | setB (s : Session)
  | clearB
  | addV (id : String) (s : Session)
  | remV (id : String)
  deriving DecidableEq, Repr

def RegOp.apply : RegOp → Registry → Registry
  | .setB s, r => setBroadcaster s r
  | .clearB, r => clearBroadcaster r
  | .addV id s, r => addViewer id s r
  | .remV id, r => removeViewer id r

def applyOps (ops : List RegOp) (r : Registry) : Registry :=
  ops.foldl (fun acc op => op.apply acc) r

/-- Operations that touch only the viewers map, not the broadcaster slot. -/
def RegOp.viewerOnly : RegOp → Bool
  | .setB _ => false
  | .clearB => false
  | .addV _ _ => true
  | .remV _ => true

/-- `generateViewerID` from the source: `"viewer-" + string(os.Getpid())`.
Go's `string(int)` is the UTF-8 encoding of the code point, so the result
depends only on the process id — it is one constant string per process. -/
def generateViewerID (pid : Nat) : String :=
  "viewer-" ++ String.mk [Char.ofNat pid]

/-- Wire message of the first main.go variant (`WebRTCMessage`). -/
structure WebRTCMessage where
  type : String
  data : String
  streamKey : String
  deriving DecidableEq, Repr

/-- Wire message of part_001 (`Message`: type, sdp, streamKey). -/
structure Message where
  type : String
  sdp : String
  streamKey : String
  deriving DecidableEq, Repr

/-- Outcome of the Media Engine calls a handler makes while processing one offer:
whether NewPeerConnection, SetRemoteDescription and SetLocalDescription succeed,
and the SDP CreateAnswer produces (none = CreateAnswer errors). -/
structure EngineBehavior where
  newPCOk : Bool
  setRemoteOk : Bool
  answerSDP : Option String
  setLocalOk : Bool
  deriving DecidableEq, Repr

/-- What one loop iteration does: `closed s` = the handler returned (the deferred
`conn.Close()` tears the connection down) having successfully sent `s`;
`looped s` = the loop proceeds to read the next message having sent `s`. -/
inductive StepResult (μ : Type) where
  | closed (sent : List μ)
  | looped (sent : List μ)
  deriving DecidableEq, Repr

/-- One iteration of the first main.go `handleBroadcaster` loop on a successfully
read message (lines 105-198): the stream-key check runs before the type switch
and any mismatch returns; for an offer the handler creates the peer connection,
sets the remote description, creates and sets the answer, and sends it; every
engine failure returns, tearing the connection down. `writeOk` models whether
`conn.WriteJSON` succeeds. -/
def handleBroadcasterMsg (secret : String) (eng : EngineBehavior) (writeOk : Bool)
    (msg : WebRTCMessage) : StepResult WebRTCMessage :=
  if msg.streamKey ≠ secret then .closed []
  else if msg.type = "offer" then
    if eng.newPCOk = false then .closed []
    else if eng.setRemoteOk = false then .closed []
    else
      match eng.answerSDP with
      | none => .closed []
      | some sdp =>
          if eng.setLocalOk = false then .closed []
          else if writeOk then .looped [⟨"answer", sdp, ""⟩]
          else .closed []
  else .looped []

/-- One iteration of part_001's `handleBroadcaster` loop on a parsed message:
only offers are handled; a stream-key mismatch returns; engine failures log and
`continue`; a `WriteJSON` failure is logged but the loop still continues. -/
def handleBroadcasterMsgP1 (secret : String) (eng : EngineBehavior) (writeOk : Bool)
    (m : Message) : StepResult Message :=
  if m.type = "offer" then
    if m.streamKey ≠ secret then .closed []
    else if eng.setRemoteOk = false then .looped []
    else
      match eng.answerSDP with
      | none => .looped []
      | some sdp =>
          if eng.setLocalOk = false then .looped []
          else if writeOk then .looped [⟨"answer", sdp, ""⟩]
          else .looped []
  else .looped []

/-- Result of one `conn.ReadMessage` plus `json.Unmarshal` attempt. -/
inductive ReadResult where
  | failed
  | unparsable
  | msg (m : Message)
  deriving DecidableEq, Repr

/-- Why (and whether) part_001's broadcaster loop ended. -/
inductive LoopExit where
  | reading
  | readError
  | authReject
  deriving DecidableEq, Repr

/-- part_001's broadcaster message loop over a sequence of read results: a read
error `break`s (after which the `broadcaster = nil` cleanup runs), an unparsable
message `continue`s, a handled message accumulates its sends; a `closed` step is
the auth-reject `return`, which skips the cleanup line. -/
def runBroadcasterLoopP1 (secret : String) (eng : EngineBehavior) (writeOk : Bool) :
    List ReadResult → List Message × LoopExit
  | [] => ([], .reading)
  | .failed :: _ => ([], .readError)
  | .unparsable :: rest => runBroadcasterLoopP1 secret eng writeOk rest
  | .msg m :: rest =>
      match handleBroadcasterMsgP1 secret eng writeOk m with
      | .closed sent => (sent, .authReject)
      | .looped sent =>
          let tailRun := runBroadcasterLoopP1 secret eng writeOk rest
          (sent ++ tailRun.1, tailRun.2)

/-- Effect of part_001's `handleBroadcaster` exit on the registry: the cleanup
`broadcaster = nil` (part_001 line 141) runs after the loop `break`s out on a
read error; it assigns nil without looking at what the slot currently holds. -/
def broadcasterExitRegistry (e : LoopExit) (r : Registry) : Registry :=
  match e with
  | .readError => clearBroadcaster r
  | .authReject => r
  | .reading => r

/-- Media Engine / transport calls made while part_001's handleViewer processes
one offer message. -/
inductive ViewerEvent where
  | setRemote
  | addTrack (trackId : String)
  | createAnswer
  | setLocal
  | sendAnswer (sdp : String)
  deriving DecidableEq, Repr

/-- The broadcaster's established media sinks (`StreamTracks`), by track id. -/
structure BroadcasterTracks where
  streamTracks : List String
  deriving DecidableEq, Repr

/-- Call trace of part_001 handleViewer's offer case (lines 194-227):
SetRemoteDescription, then — if a broadcaster exists — AddTrack for each of its
StreamTracks (an AddTrack error just continues with the next track), then
CreateAnswer, SetLocalDescription and the answer send. An engine failure drops
the message at that point (`continue`). -/
def handleViewerOfferP1 (eng : EngineBehavior) (broadcaster : Option BroadcasterTracks) :
    List ViewerEvent :=
  if eng.setRemoteOk = false then [.setRemote]
  else
    let attach : List ViewerEvent :=
      match broadcaster with
      | none => []
      | some b => b.streamTracks.map (fun t => ViewerEvent.addTrack t)
    ViewerEvent.setRemote ::
      (attach ++
        (match eng.answerSDP with
         | none => [.createAnswer]
         | some sdp =>
            if eng.setLocalOk = false then [.createAnswer, .setLocal]
            else [.createAnswer, .setLocal, .sendAnswer sdp]))

/-- True when no AddTrack call occurs in the trace. -/
def noAttachIn : List ViewerEvent → Bool
  | [] => true
  | .addTrack _ :: _ => false
  | _ :: rest => noAttachIn rest

/-- True when every AddTrack call in the trace precedes every CreateAnswer call. -/
def attachesBeforeAnswer : List ViewerEvent → Bool
  | [] => true
  | .createAnswer :: rest => noAttachIn rest
  | _ :: rest => attachesBeforeAnswer rest

/-- A viewer as the fan-out loop sees it: its forwarded-track sinks. -/
structure ViewerConn where
  streamTracks : List String
  deriving DecidableEq, Repr

/-- Per-viewer outcome of one packet iteration of the fan-out loop. -/
inductive FanEvent where
  | wrote (id : String) (track : String)
  | writeFailed (id : String) (track : String)
  | skipped (id : String)
  deriving DecidableEq, Repr

/-- Body of the second main.go forwarder goroutine for one packet (lines around
`viewersMutex.RLock()` in its OnTrack): iterate the viewers map and `WriteRTP`
the packet into `viewer.StreamTracks[0]` when the viewer has a sink; a write
error is logged and the iteration continues with the next viewer. `fail id`
tells whether viewer id's sink write errors. -/
def fanoutPacket (fail : String → Bool) : List (String × ViewerConn) → List FanEvent
  | [] => []
  | (id, v) :: rest =>
      (match v.streamTracks with
       | [] => FanEvent.skipped id
       | t :: _ => if fail id then FanEvent.writeFailed id t else FanEvent.wrote id t)
        :: fanoutPacket fail rest

/-- Lock-level events of one packet iteration of the fan-out loop. -/
inductive LockEvent where
  | rlockAcquire
  | rlockRelease
  | sinkWrite (id : String)
  deriving DecidableEq, Repr

/-- The same packet iteration at lock granularity, as written in the source:
`viewersMutex.RLock()`, then the per-viewer `WriteRTP` calls, then
`viewersMutex.RUnlock()` — the read lock is held across the sink writes. -/
def packetIterationTrace (vs : List (String × ViewerConn)) : List LockEvent :=
  LockEvent.rlockAcquire ::
    ((vs.filter (fun p => !p.2.streamTracks.isEmpty)).map
        (fun p => LockEvent.sinkWrite p.1)
      ++ [LockEvent.rlockRelease])

/-- Scan helper: does some sink write occur while the lock is held? -/
def writeUnderLockFrom : List LockEvent → Bool → Bool
  | [], _ => false
  | .rlockAcquire :: rest, _ => writeUnderLockFrom rest true
  | .rlockRelease :: rest, _ => writeUnderLockFrom rest false
  | .sinkWrite _ :: rest, held => held || writeUnderLockFrom rest held

def existsWriteUnderLock (tr : List LockEvent) : Bool :=
  writeUnderLockFrom tr false

/-- Page data of the root route (mirrors the Go `PageData` struct). -/
structure PageData where
  StreamKey : String
  IsViewer : Bool
  IsBroadcaster : Bool
  ServerWSURL : String
  deriving DecidableEq, Repr

/-- Page data built by the root handler in setupWebRoutes (main.go lines 56-61
and the web.go / part_002 / part_003 variants): `StreamKey := getStreamKey()`
unconditionally, for broadcaster and viewer views alike. -/
def rootPageData (secret serverURL view : String) : PageData :=
  { StreamKey := secret
    IsViewer := view == "viewer"
    IsBroadcaster := view == "broadcaster"
    ServerWSURL := serverURL }

theorem viewerOnly_preserves_broadcaster (op : RegOp) (r : Registry)
    (h : op.viewerOnly = true) : (op.apply r).broadcaster = r.broadcaster := by
  cases op with
  | setB s => simp [RegOp.viewerOnly] at h
  | clearB => simp [RegOp.viewerOnly] at h
  | addV id s => simp [RegOp.apply, addViewer]
  | remV id => simp [RegOp.apply, removeViewer]

theorem applyOps_viewerOnly_broadcaster (ops : List RegOp) (r : Registry)
    (h : ∀ op ∈ ops, op.viewerOnly = true) :
    (applyOps ops r).broadcaster = r.broadcaster := by
  induction ops generalizing r with
  | nil => rfl
  | cons op rest ih =>
      have hop : op.viewerOnly = true := h op (List.mem_cons_self op rest)
      have hrest : ∀ o ∈ rest, o.viewerOnly = true :=
        fun o ho => h o (List.mem_cons_of_mem op ho)
      have hstep : applyOps (op :: rest) r = applyOps rest (op.apply r) := rfl
      rw [hstep, ih (op.apply r) hrest, viewerOnly_preserves_broadcaster op r hop]

theorem filter_self_stable {α : Type} (p : α → Bool) (l : List α) :
    (l.filter p).filter p = l.filter p := by
  induction l with
  | nil => rfl
  | cons a t ih =>
      by_cases h : p a
      · simp [List.filter_cons, h, ih]
      · simp [List.filter_cons, h, ih]

/-- C2: at most one broadcaster session is registered at any time (the slot
holds at most one session); setBroadcaster followed by isBroadcasting reports
true and keeps reporting true across viewer-only registry operations, and once
the broadcaster teardown clears the slot, isBroadcasting reports false. -/
theorem broadcaster_singleton_invariant (r : Registry) (s : Session) (ops : List RegOp)
    (h : ∀ op ∈ ops, op.viewerOnly = true) :
    broadcasterCount (applyOps ops (setBroadcaster s r)) ≤ 1 ∧
    isBroadcasting (setBroadcaster s r) = true ∧
    isBroadcasting (applyOps ops (setBroadcaster s r)) = true ∧
    isBroadcasting (clearBroadcaster (applyOps ops (setBroadcaster s r))) = false := by
  have hb : (applyOps ops (setBroadcaster s r)).broadcaster = some s := by
    rw [applyOps_viewerOnly_broadcaster ops _ h]
    rfl
  refine ⟨?_, rfl, ?_, ?_⟩
  · simp [broadcasterCount, hb]
  · simp [isBroadcasting, hb]
  · simp [isBroadcasting, clearBroadcaster]

theorem broadcaster_singleton_invariant_witness :
    (∀ op ∈ [RegOp.addV "a" ⟨2⟩], op.viewerOnly = true) ∧
    (broadcasterCount (applyOps [RegOp.addV "a" ⟨2⟩] (setBroadcaster ⟨1⟩ Registry.empty)) ≤ 1 ∧
     isBroadcasting (setBroadcaster ⟨1⟩ Registry.empty) = true ∧
     isBroadcasting (applyOps [RegOp.addV "a" ⟨2⟩] (setBroadcaster ⟨1⟩ Registry.empty)) = true ∧
     isBroadcasting (clearBroadcaster
        (applyOps [RegOp.addV "a" ⟨2⟩] (setBroadcaster ⟨1⟩ Registry.empty))) = false) :=
  ⟨by decide,
   broadcaster_singleton_invariant Registry.empty ⟨1⟩ [RegOp.addV "a" ⟨2⟩] (by decide)⟩

/-- C8: removing a viewer id twice in succession has the same observable effect
on the registry as removing it once, and removing an absent id is a no-op that
leaves the registry unchanged. -/
theorem removeViewer_idempotent (id : String) (r : Registry) :
    removeViewer id (removeViewer id r) = removeViewer id r ∧
    (lookupViewer id r = none → removeViewer id r = r) := by
  cases r with
  | mk b vs =>
    constructor
    · simp only [removeViewer]
      congr 1
      exact filter_self_stable _ _
    · intro hnone
      have hfind : vs.find? (fun p => p.1 == id) = none := by
        simpa [lookupViewer] using hnone
      have hall := List.find?_eq_none.mp hfind
      have hfilter : vs.filter (fun p => p.1 != id) = vs := by
        apply List.filter_eq_self.mpr
        intro x hx
        have hne := hall x hx
        simp only [Bool.not_eq_true] at hne
        simp [bne, hne]
      simp only [removeViewer]
      rw [hfilter]

theorem removeViewer_idempotent_witness :
    (removeViewer "a" (removeViewer "a" Registry.empty) = removeViewer "a" Registry.empty ∧
     (lookupViewer "a" Registry.empty = none →
        removeViewer "a" Registry.empty = Registry.empty)) ∧
    removeViewer "a" Registry.empty = Registry.empty :=
  ⟨removeViewer_idempotent "a" Registry.empty,
   (removeViewer_idempotent "a" Registry.empty).2 (by decide)⟩

/-- C9: when part_001's broadcaster loop terminates through a transport read
error, the cleanup assigns nil to the broadcaster slot without inspecting its
contents, so after register(A), register(B), teardown(A) the broadcast status
reports false even though session B had replaced A in the slot. -/
theorem broadcaster_cleanup_unconditional (secret : String) (eng : EngineBehavior)
    (writeOk : Bool) (reads : List ReadResult) (r : Registry) (a b : Session)
    (hexit : (runBroadcasterLoopP1 secret eng writeOk reads).2 = .readError) :
    broadcasterExitRegistry (runBroadcasterLoopP1 secret eng writeOk reads).2
        (setBroadcaster b (setBroadcaster a r)) =
      clearBroadcaster (setBroadcaster b (setBroadcaster a r)) ∧
    isBroadcasting (broadcasterExitRegistry (runBroadcasterLoopP1 secret eng writeOk reads).2
        (setBroadcaster b (setBroadcaster a r))) = false := by
  rw [hexit]
  exact ⟨rfl, rfl⟩

theorem broadcaster_cleanup_unconditional_witness :
    ((runBroadcasterLoopP1 "k" ⟨true, true, some "v=0", true⟩ true [ReadResult.failed]).2 =
        .readError) ∧
    (broadcasterExitRegistry
        (runBroadcasterLoopP1 "k" ⟨true, true, some "v=0", true⟩ true [ReadResult.failed]).2
        (setBroadcaster ⟨2⟩ (setBroadcaster ⟨1⟩ Registry.empty)) =
      clearBroadcaster (setBroadcaster ⟨2⟩ (setBroadcaster ⟨1⟩ Registry.empty)) ∧
     isBroadcasting (broadcasterExitRegistry
        (runBroadcasterLoopP1 "k" ⟨true, true, some "v=0", true⟩ true [ReadResult.failed]).2
        (setBroadcaster ⟨2⟩ (setBroadcaster ⟨1⟩ Registry.empty))) = false) :=
  ⟨by decide,
   broadcaster_cleanup_unconditional "k" ⟨true, true, some "v=0", true⟩ true
     [ReadResult.failed] Registry.empty ⟨1⟩ ⟨2⟩ (by decide)⟩

/-- C6: the source's viewer-id generation is pid-based, so two concurrent viewer
connections in the same process (pid 1234 here) receive the same identifier, and
the second registration overwrites the first: the registry ends with a single
entry holding the second session rather than two independent entries. -/
theorem generateViewerID_collision :
    generateViewerID 1234 = generateViewerID 1234 ∧
    snapshotViewers
        (addViewer (generateViewerID 1234) ⟨2⟩
          (addViewer (generateViewerID 1234) ⟨1⟩ Registry.empty)) =
      [(generateViewerID 1234, ⟨2⟩)] ∧
    lookupViewer (generateViewerID 1234)
        (addViewer (generateViewerID 1234) ⟨2⟩
          (addViewer (generateViewerID 1234) ⟨1⟩ Registry.empty)) = some ⟨2⟩ := by
  refine ⟨rfl, ?_, ?_⟩ <;> decide

/-- C1: in the first main.go broadcaster handler, an offer whose streamKey
differs from the secret triggers a return with nothing sent (the deferred close
tears the connection down); with the matching key, and the media engine and
transport functioning, exactly one answer message carrying the engine's
non-empty SDP is sent before the loop reads the next message. -/
theorem broadcaster_offer_auth (secret : String) (eng : EngineBehavior) (writeOk : Bool)
    (msg : WebRTCMessage) (hoffer : msg.type = "offer") :
    (msg.streamKey ≠ secret →
      handleBroadcasterMsg secret eng writeOk msg = .closed []) ∧
    (∀ sdp, msg.streamKey = secret → eng.newPCOk = true → eng.setRemoteOk = true →
      eng.answerSDP = some sdp → sdp ≠ "" → eng.setLocalOk = true → writeOk = true →
      handleBroadcasterMsg secret eng writeOk msg =
        .looped [{ type := "answer", data := sdp, streamKey := "" }] ∧
      sdp ≠ "") := by
  constructor
  · intro hne
    simp [handleBroadcasterMsg, hne]
  · intro sdp hkey h1 h2 hans hsdp h3 h4
    refine ⟨?_, hsdp⟩
    simp [handleBroadcasterMsg, hkey, hoffer, h1, h2, hans, h3, h4]

theorem broadcaster_offer_auth_witness :
    (handleBroadcasterMsg "k" ⟨true, true, some "v=0", true⟩ true ⟨"offer", "o", "k"⟩ =
        .looped [{ type := "answer", data := "v=0", streamKey := "" }] ∧ "v=0" ≠ "") ∧
    handleBroadcasterMsg "k" ⟨true, true, some "v=0", true⟩ true ⟨"offer", "o", "bad"⟩ =
      .closed [] :=
  ⟨(broadcaster_offer_auth "k" ⟨true, true, some "v=0", true⟩ true
      ⟨"offer", "o", "k"⟩ rfl).2 "v=0" rfl rfl rfl rfl (by decide) rfl rfl,
   (broadcaster_offer_auth "k" ⟨true, true, some "v=0", true⟩ true
      ⟨"offer", "o", "bad"⟩ rfl).1 (by decide)⟩

/-- C7 counterexample: in the first main.go broadcaster handler, a
set-remote-description failure on a correct-key offer ends the connection (the
handler returns and the deferred close runs) instead of dropping only that
message and continuing the read loop. -/
theorem media_failure_fatal_in_first_handler :
    handleBroadcasterMsg "k" ⟨true, false, some "v=0", true⟩ true ⟨"offer", "o", "k"⟩ =
      .closed [] ∧
    (StepResult.closed ([] : List WebRTCMessage)) ≠ .looped [] :=
  ⟨by decide, by decide⟩

/-- C7 amended: in part_001's broadcaster handler a media-engine failure while
handling a message (set-remote, create-answer or set-local failure) drops only
that message and the read loop continues, and a transport read failure always
terminates the loop at once; in the first main.go handler, by contrast, a
media-engine failure also terminates the connection. -/
theorem media_failure_policy (secret : String) (eng : EngineBehavior) (writeOk : Bool)
    (m : Message) (hoffer : m.type = "offer") (hkey : m.streamKey = secret) :
    (eng.setRemoteOk = false →
      handleBroadcasterMsgP1 secret eng writeOk m = .looped []) ∧
    (eng.setRemoteOk = true → eng.answerSDP = none →
      handleBroadcasterMsgP1 secret eng writeOk m = .looped []) ∧
    (∀ sdp, eng.setRemoteOk = true → eng.answerSDP = some sdp → eng.setLocalOk = false →
      handleBroadcasterMsgP1 secret eng writeOk m = .looped []) ∧
    (∀ reads, runBroadcasterLoopP1 secret eng writeOk (ReadResult.failed :: reads) =
      ([], .readError)) ∧
    (eng.newPCOk = true → eng.setRemoteOk = false →
      ∀ wmsg : WebRTCMessage, wmsg.type = "offer" → wmsg.streamKey = secret →
        handleBroadcasterMsg secret eng writeOk wmsg = .closed []) := by
  refine ⟨?_, ?_, ?_, ?_, ?_⟩
  · intro h
    simp [handleBroadcasterMsgP1, hoffer, hkey, h]
  · intro h1 h2
    simp [handleBroadcasterMsgP1, hoffer, hkey, h1, h2]
  · intro sdp h1 h2 h3
    simp [handleBroadcasterMsgP1, hoffer, hkey, h1, h2, h3]
  · intro reads
    rfl
  · intro h1 h2 wmsg hw1 hw2
    simp [handleBroadcasterMsg, hw1, hw2, h1, h2]

theorem media_failure_policy_witness :
    handleBroadcasterMsgP1 "k" ⟨true, false, some "v=0", true⟩ true ⟨"offer", "o", "k"⟩ =
      .looped [] ∧
    runBroadcasterLoopP1 "k" ⟨true, false, some "v=0", true⟩ true [ReadResult.failed] =
      ([], .readError) :=
  ⟨(media_failure_policy "k" ⟨true, false, some "v=0", true⟩ true
      ⟨"offer", "o", "k"⟩ rfl rfl).1 rfl,
   (media_failure_policy "k" ⟨true, false, some "v=0", true⟩ true
      ⟨"offer", "o", "k"⟩ rfl rfl).2.2.2.1 []⟩

theorem attachesBeforeAnswer_attach_then (ts : List String) (rest : List ViewerEvent)
    (h : noAttachIn rest = true) :
    attachesBeforeAnswer
      ((ts.map fun t => ViewerEvent.addTrack t) ++ (ViewerEvent.createAnswer :: rest)) =
      true := by
  induction ts with
  | nil => simpa [attachesBeforeAnswer] using h
  | cons t tl ih => simpa [attachesBeforeAnswer] using ih

/-- C5: in part_001's viewer handler, when a broadcaster with established media
sinks exists and the remote description is accepted, every broadcaster sink is
attached (AddTrack) strictly before the viewer's answer is computed
(CreateAnswer) — attach-then-answer, never answer-then-attach. -/
theorem viewer_attach_before_answer (eng : EngineBehavior) (b : BroadcasterTracks)
    (hremote : eng.setRemoteOk = true) :
    attachesBeforeAnswer (handleViewerOfferP1 eng (some b)) = true ∧
    (∀ t ∈ b.streamTracks,
      ViewerEvent.addTrack t ∈ handleViewerOfferP1 eng (some b)) ∧
    ViewerEvent.createAnswer ∈ handleViewerOfferP1 eng (some b) := by
  have hshape : ∃ rest, noAttachIn rest = true ∧
      handleViewerOfferP1 eng (some b) =
        ViewerEvent.setRemote ::
          ((b.streamTracks.map fun t => ViewerEvent.addTrack t) ++
            (ViewerEvent.createAnswer :: rest)) := by
    cases hans : eng.answerSDP with
    | none =>
        exact ⟨[], rfl, by simp [handleViewerOfferP1, hremote, hans]⟩
    | some sdp =>
        cases hloc : eng.setLocalOk with
        | false =>
            exact ⟨[ViewerEvent.setLocal], rfl,
              by simp [handleViewerOfferP1, hremote, hans, hloc]⟩
        | true =>
            exact ⟨[ViewerEvent.setLocal, ViewerEvent.sendAnswer sdp], rfl,
              by simp [handleViewerOfferP1, hremote, hans, hloc]⟩
  obtain ⟨rest, hrest, heq⟩ := hshape
  refine ⟨?_, ?_, ?_⟩
  · rw [heq]
    simpa [attachesBeforeAnswer] using
      attachesBeforeAnswer_attach_then b.streamTracks rest hrest
  · intro t ht
    rw [heq]
    apply List.mem_cons_of_mem
    apply List.mem_append_left
    exact List.mem_map.mpr ⟨t, ht, rfl⟩
  · rw [heq]
    apply List.mem_cons_of_mem
    apply List.mem_append_right
    exact List.mem_cons_self _ _

theorem viewer_attach_before_answer_witness :
    attachesBeforeAnswer
        (handleViewerOfferP1 ⟨true, true, some "v=0", true⟩ (some ⟨["audio"]⟩)) = true ∧
    (∀ t ∈ (⟨["audio"]⟩ : BroadcasterTracks).streamTracks,
      ViewerEvent.addTrack t ∈
        handleViewerOfferP1 ⟨true, true, some "v=0", true⟩ (some ⟨["audio"]⟩)) ∧
    ViewerEvent.createAnswer ∈
      handleViewerOfferP1 ⟨true, true, some "v=0", true⟩ (some ⟨["audio"]⟩) :=
  viewer_attach_before_answer ⟨true, true, some "v=0", true⟩ ⟨["audio"]⟩ rfl

theorem fanoutPacket_length (fail : String → Bool) (vs : List (String × ViewerConn)) :
    (fanoutPacket fail vs).length = vs.length := by
  induction vs with
  | nil => rfl
  | cons hd rest ih =>
      obtain ⟨id, v⟩ := hd
      simp [fanoutPacket, ih]

theorem fanoutPacket_attempts (fail : String → Bool) (vs : List (String × ViewerConn))
    (id : String) (v : ViewerConn) (t : String) (ts : List String)
    (hmem : (id, v) ∈ vs) (hsink : v.streamTracks = t :: ts) :
    FanEvent.wrote id t ∈ fanoutPacket fail vs ∨
      FanEvent.writeFailed id t ∈ fanoutPacket fail vs := by
  induction vs with
  | nil => cases hmem
  | cons hd rest ih =>
      rcases List.mem_cons.mp hmem with heq | hmemr
      · cases heq
        by_cases hfail : fail id = true
        · right
          simp [fanoutPacket, hsink, hfail]
        · left
          simp [fanoutPacket, hsink, hfail]
      · obtain ⟨hid, hv⟩ := hd
        rcases ih hmemr with h | h
        · exact Or.inl (List.mem_cons_of_mem _ h)
        · exact Or.inr (List.mem_cons_of_mem _ h)

/-- C3: for each packet, the fan-out iteration attempts a write of that packet
into the first sink of every viewer present in the snapshot it iterates,
whatever the per-viewer write-failure pattern is (a failing write is logged and
the iteration continues), and every snapshot entry contributes exactly one
event — so one viewer's sink failure never suppresses another viewer's write
attempt in the same iteration. -/
theorem fanout_covers_snapshot (fail : String → Bool) (vs : List (String × ViewerConn))
    (id : String) (v : ViewerConn) (t : String) (ts : List String)
    (hmem : (id, v) ∈ vs) (hsink : v.streamTracks = t :: ts) :
    (FanEvent.wrote id t ∈ fanoutPacket fail vs ∨
      FanEvent.writeFailed id t ∈ fanoutPacket fail vs) ∧
    (fanoutPacket fail vs).length = vs.length :=
  ⟨fanoutPacket_attempts fail vs id v t ts hmem hsink, fanoutPacket_length fail vs⟩

theorem fanout_covers_snapshot_witness :
    ((FanEvent.wrote "v1" "audio" ∈
        fanoutPacket (fun i => i == "v2") [("v1", ⟨["audio"]⟩), ("v2", ⟨["audio"]⟩)] ∨
      FanEvent.writeFailed "v1" "audio" ∈
        fanoutPacket (fun i => i == "v2") [("v1", ⟨["audio"]⟩), ("v2", ⟨["audio"]⟩)]) ∧
     (fanoutPacket (fun i => i == "v2")
        [("v1", ⟨["audio"]⟩), ("v2", ⟨["audio"]⟩)]).length =
       ([("v1", (⟨["audio"]⟩ : ViewerConn)), ("v2", ⟨["audio"]⟩)]).length) :=
  fanout_covers_snapshot (fun i => i == "v2")
    [("v1", ⟨["audio"]⟩), ("v2", ⟨["audio"]⟩)] "v1" ⟨["audio"]⟩ "audio" []
    (by decide) rfl

/-- C4 counterexample: for a packet processed while viewer "v1" (which has a
sink) is registered, the source's iteration performs the sink write between the
RLock and the RUnlock: the registry lock is held across the viewer write, so the
claim that the lock is held only for a map copy and not across viewer writes is
false on this input. -/
theorem fanout_lock_held_counterexample :
    existsWriteUnderLock (packetIterationTrace [("v1", ⟨["audio"]⟩)]) = true ∧
    packetIterationTrace [("v1", ⟨["audio"]⟩)] =
      [LockEvent.rlockAcquire, LockEvent.sinkWrite "v1", LockEvent.rlockRelease] :=
  ⟨by decide, by decide⟩

theorem writeUnderLockFrom_cons_write (i : String) (l : List LockEvent) :
    writeUnderLockFrom (LockEvent.sinkWrite i :: l) true = true := by
  simp [writeUnderLockFrom]

/-- C4 amended: the fan-out consults the viewer registry anew for every packet:
whatever the registry holds when a packet is processed, every registered viewer
with a sink gets a sink write for that packet (so a viewer whose sink registers
after the track started is served from the next packet on), and that write is
performed while the registry read lock is held — the lock is held across the
viewer writes rather than only for a snapshot copy. -/
theorem fanout_per_packet_current_registry (vs : List (String × ViewerConn))
    (id : String) (v : ViewerConn) (hmem : (id, v) ∈ vs)
    (hsink : v.streamTracks ≠ []) :
    LockEvent.sinkWrite id ∈ packetIterationTrace vs ∧
    existsWriteUnderLock (packetIterationTrace vs) = true := by
  have hmemf : (id, v) ∈ vs.filter (fun p => !p.2.streamTracks.isEmpty) := by
    apply List.mem_filter.mpr
    refine ⟨hmem, ?_⟩
    simpa [List.isEmpty_iff] using hsink
  constructor
  · apply List.mem_cons_of_mem
    apply List.mem_append_left
    exact List.mem_map.mpr ⟨(id, v), hmemf, rfl⟩
  · have hne : vs.filter (fun p => !p.2.streamTracks.isEmpty) ≠ [] :=
      List.ne_nil_of_mem hmemf
    obtain ⟨f, tl, hF⟩ := List.exists_cons_of_ne_nil hne
    simp [existsWriteUnderLock, packetIterationTrace, hF, writeUnderLockFrom]

theorem fanout_per_packet_current_registry_witness :
    LockEvent.sinkWrite "v2" ∈
      packetIterationTrace [("v1", ⟨[]⟩), ("v2", ⟨["audio"]⟩)] ∧
    existsWriteUnderLock
      (packetIterationTrace [("v1", ⟨[]⟩), ("v2", ⟨["audio"]⟩)]) = true :=
  fanout_per_packet_current_registry [("v1", ⟨[]⟩), ("v2", ⟨["audio"]⟩)]
    "v2" ⟨["audio"]⟩ (by decide) (by decide)

/-- C10: the root page handler places the configured stream-key secret into the
page data for broadcaster and viewer views alike, so the page data is not
independent of the secret even for an unauthenticated viewer request: changing
the secret changes the response data. -/
theorem root_page_includes_secret (secret url view s1 s2 : String) (hne : s1 ≠ s2) :
    (rootPageData secret url view).StreamKey = secret ∧
    rootPageData s1 url view ≠ rootPageData s2 url view := by
  refine ⟨rfl, ?_⟩
  intro h
  exact hne (congrArg PageData.StreamKey h)

theorem root_page_includes_secret_witness :
    (rootPageData "hunter2" "ws://h:8080" "viewer").StreamKey = "hunter2" ∧
    rootPageData "s1" "ws://h:8080" "viewer" ≠ rootPageData "s2" "ws://h:8080" "viewer" :=
  root_page_includes_secret "hunter2" "ws://h:8080" "viewer" "s1" "s2" (by decide)

end Streaming
